import Mathlib

/-!
Verification development for the nado-telegram-bot trade-execution core.

The definitions below are a shallow embedding of the JavaScript source:

* `src/trading/tradeManager.js` — the `TradeManager` class: daily counter
  reset, admission gate, `executeTrade`, position sizing, TP/SL price
  computation, fill handling and position close (PnL).
* `src/utils/tradingHours.js` — the `TradingHours.isWithinTradingHours`
  static method (minute-of-day window check).
* the alternative Nado client variant — `getSubaccountBalance` with its
  hardcoded balance bypass.
* `src/telegram/listener.js` — `validateSignal` (whitelist and signal-type
  admission check).

Decimal amounts are embedded as rationals (`ℚ`); the exchange-native X18
fixed-point values are rationals converted by division by 10^18, mirroring
`fromX18`.  External I/O (product lookup, balance fetch, order placement,
the wall clock) is passed in explicitly as an environment, and the effects
the manager performs (notifications sent, orders submitted, the TP/SL
placement it schedules) are returned as data.
-/

namespace NadoBot

/-- Trade side, as the strings 'LONG' / 'SHORT' in the source. -/
inductive Side where
  | LONG
  | SHORT
deriving DecidableEq, Repr

/-- Reason given to closePosition: which protective order filled. -/
inductive CloseReason where
  | TP
  | SL
deriving DecidableEq, Repr

/-- Position record stored in `this.openPositions`
(tradeManager.js lines 102-114).  `digest` is the entry-order digest and
is also the map key; `tpOrderDigest` / `slOrderDigest` start as null and
are set when the TP/SL orders are placed. -/
structure Position where
  digest : String
  symbol : String
  side : Side
  entryPrice : ℚ
  size : ℚ
  tpPrice : ℚ
  slPrice : ℚ
  productId : ℕ
  tpOrderDigest : Option String
  slOrderDigest : Option String
deriving DecidableEq, Repr

/-- Mutable state of a `TradeManager` instance (constructor, lines 5-11):
the open-position map (kept as a list in insertion order, keys being the
`digest` fields), the daily trade counter and the last reset date string. -/
structure TMState where
  openPositions : List Position
  dailyTrades : ℕ
  lastResetDate : String
deriving DecidableEq, Repr

/-- Messages handed to the notifier collaborator. -/
inductive Notification where
  | message (text : String)
  | tradeOpen (pos : Position) (balance : ℚ)
  | tradeClose (pos : Position) (reason : CloseReason) (exitPrice : Option ℚ)
      (pnlUSD : Option ℚ) (pnlPercent : Option ℚ) (newBalance : ℚ)
deriving DecidableEq, Repr

/-- The `config.risk` block of config.js. -/
structure RiskConfig where
  riskPercent : ℚ
  takeProfitPercent : ℚ
  stopLossPercent : ℚ
  leverage : ℚ
  maxDailyTrades : ℕ
  maxOpenPositions : ℕ
deriving DecidableEq, Repr

/-- The `config.tradingHours` block of config.js, with the startUtc and
endUtc strings already split at the colon into hour/minute numbers (the
`split(':').map(Number)` step of isWithinTradingHours). -/
structure TradingHoursConfig where
  enabled : Bool
  startHour : ℕ
  startMin : ℕ
  endHour : ℕ
  endMin : ℕ
deriving DecidableEq, Repr

/-- `fromX18`: convert an exchange-native X18 fixed-point value to a
decimal amount. -/
def fromX18 (x : ℚ) : ℚ := x / 10 ^ 18

/-- `TradingHours.isWithinTradingHours` (tradingHours.js lines 4-21),
applied to the current UTC hours and minutes.  When trading hours are
disabled it returns true; otherwise it compares the minute-of-day against
the configured window with `currentTime >= startTime && currentTime <=
endTime`. -/
def isWithinTradingHours (cfg : TradingHoursConfig) (utcHours utcMinutes : ℕ) : Bool :=
  if !cfg.enabled then
    true
  else
    let currentTime := utcHours * 60 + utcMinutes
    let startTime := cfg.startHour * 60 + cfg.startMin
    let endTime := cfg.endHour * 60 + cfg.endMin
    decide (startTime ≤ currentTime ∧ currentTime ≤ endTime)

/-- Subaccount summary health block returned by the exchange SDK; the
raw `totalDeposited` is an X18 amount. -/
structure SubaccountHealth where
  totalDeposited : ℚ
deriving DecidableEq, Repr

/-- Subaccount summary; `health` is null/absent when the SDK reply has no
health block (the JS truthiness test `summary && summary.health`). -/
structure SubaccountSummary where
  health : Option SubaccountHealth
deriving DecidableEq, Repr

/-- Outcome of the SDK call `getSubaccountSummary`: either a reply (which
may itself be empty), or a thrown error. -/
inductive FetchOutcome where
  | ok (summary : Option SubaccountSummary)
  | thrown
deriving DecidableEq, Repr

/-- `getSubaccountBalance` of the alternative NadoClient variant
(the client file with the balance bypass, lines 49-71), reduced to the
USDT0 number it returns: with a summary carrying a health block it
returns `totalDeposited / 1e18`; when the summary or its health block is
empty it returns the hardcoded bypass 100.0; and when the SDK throws it
also returns the hardcoded 100.0. -/
def getSubaccountBalanceAlt : FetchOutcome → ℚ
  | .ok (some s) =>
      match s.health with
      | some h => h.totalDeposited / 10 ^ 18
      | none => 100
  | .ok none => 100
  | .thrown => 100

/-- `calculatePositionSize` (tradeManager.js lines 135-137). -/
def calculatePositionSize (cfg : RiskConfig) (balance : ℚ) : ℚ :=
  balance * cfg.riskPercent / 100 * cfg.leverage

/-- The take-profit price computed in executeTrade (lines 84-86). -/
def tpPriceFor (cfg : RiskConfig) (side : Side) (entryPrice : ℚ) : ℚ :=
  if side = Side.LONG then entryPrice * (1 + cfg.takeProfitPercent / 100)
  else entryPrice * (1 - cfg.takeProfitPercent / 100)

/-- The stop-loss price computed in executeTrade (lines 88-90). -/
def slPriceFor (cfg : RiskConfig) (side : Side) (entryPrice : ℚ) : ℚ :=
  if side = Side.LONG then entryPrice * (1 - cfg.stopLossPercent / 100)
  else entryPrice * (1 + cfg.stopLossPercent / 100)

/-- `resetDailyCounterIfNeeded` (tradeManager.js lines 13-20), with the
current date string (`new Date().toDateString()`) passed in. -/
def resetDailyCounterIfNeeded (today : String) (s : TMState) : TMState :=
  if s.lastResetDate ≠ today then
    { s with dailyTrades := 0, lastResetDate := today }
  else
    s

/-- `canOpenNewPosition` (tradeManager.js lines 22-34).  It first runs the
lazy daily reset (a state mutation), then checks the daily-trade cap and
the open-position cap.  Returns the possibly-reset state together with
the boolean answer. -/
def canOpenNewPosition (cfg : RiskConfig) (today : String) (s0 : TMState) :
    TMState × Bool :=
  let s := resetDailyCounterIfNeeded today s0
  if cfg.maxDailyTrades ≤ s.dailyTrades then (s, false)
  else if cfg.maxOpenPositions ≤ s.openPositions.length then (s, false)
  else (s, true)

/-- The PnL percentage computed in closePosition (lines 228-230). -/
def pnlPercentOf (side : Side) (entryPrice exitPrice : ℚ) : ℚ :=
  if side = Side.LONG then (exitPrice - entryPrice) / entryPrice * 100
  else (entryPrice - exitPrice) / entryPrice * 100

/-- `closePosition` (tradeManager.js lines 223-256): computes PnL from
the exit price (which is null when the fill carried no usable price — the
PnL fields are then absent, standing for the JS arithmetic on null),
cancels the sibling order (external I/O, no state effect), removes the
position from the open-position map by its entry digest, and sends one
close notification carrying the fresh balance. -/
def closePosition (s : TMState) (p : Position) (reason : CloseReason)
    (exitPrice : Option ℚ) (newBalance : ℚ) : TMState × List Notification :=
  let pnlPercent := exitPrice.map (pnlPercentOf p.side p.entryPrice)
  let pnlUSD := pnlPercent.map (fun pc => p.size * pc / 100)
  ({ s with openPositions := s.openPositions.filter (fun q => q.digest != p.digest) },
   [Notification.tradeClose p reason exitPrice pnlUSD pnlPercent newBalance])

/-- An order-update event from the WebSocket stream, as destructured at
the top of handleOrderUpdate (line 198). -/
structure OrderUpdate where
  digest : String
  status : String
  fillPriceX18 : Option ℚ
deriving DecidableEq, Repr

/-- `const fillPrice = fill_price_x18 ? this.nado.fromX18(fill_price_x18)
: null` (line 204): absent or zero X18 price yields null. -/
def fillPriceOf (u : OrderUpdate) : Option ℚ :=
  match u.fillPriceX18 with
  | some x => if x = 0 then none else some (fromX18 x)
  | none => none

/-- The scan loop of handleOrderUpdate (lines 207-217): walk the
open-position map in insertion order and return the first position whose
TP order digest matches the event (reason TP), else whose SL order digest
matches (reason SL). -/
def findFillMatch : List Position → String → Option (Position × CloseReason)
  | [], _ => none
  | p :: rest, d =>
      if p.tpOrderDigest = some d then some (p, CloseReason.TP)
      else if p.slOrderDigest = some d then some (p, CloseReason.SL)
      else findFillMatch rest d

/-- `handleOrderUpdate` (tradeManager.js lines 196-221): ignore events
whose status is not 'filled'; otherwise match the digest against the
TP/SL digests of the open positions and close the first match.
`newBalance` is the balance the exchange would report during the close
(the `getSubaccountBalance` call inside closePosition). -/
def handleOrderUpdate (s : TMState) (u : OrderUpdate) (newBalance : ℚ) :
    TMState × List Notification :=
  if u.status ≠ "filled" then (s, [])
  else
    match findFillMatch s.openPositions u.digest with
    | some (p, reason) => closePosition s p reason (fillPriceOf u) newBalance
    | none => (s, [])

/-- A product record as consumed by executeTrade (`getProductBySymbol`):
its id and its mark price, an X18 value that may be absent. -/
structure Product where
  product_id : ℕ
  mark_price_x18 : Option ℚ
deriving DecidableEq, Repr

/-- A parsed signal as handed to executeTrade by the Telegram listener:
the symbol, the raw signal-type string, and the optional
`signal.stats.lastPrice` fallback price. -/
structure Signal where
  symbol : String
  signalType : String
  statsLastPrice : Option ℚ
deriving DecidableEq, Repr

/-- The external world as observed during one executeTrade call: the
product lookup result, the available USDT0 balance (after the `|| 0`
defaulting), the digest of the accepted entry order — none when
placeMarketOrder failed or the reply carried no digest — and the current
date string used by the lazy daily reset. -/
structure ExecEnv where
  product : Option Product
  balanceUSDT0 : ℚ
  orderDigest : Option String
  today : String
deriving DecidableEq, Repr

/-- Everything one executeTrade call produces: the updated manager state,
whether an entry order submission was attempted (placeMarketOrder
reached), the position that was registered (if any), the notifications
sent, and whether the delayed TP/SL placement was scheduled. -/
structure TradeOutcome where
  state : TMState
  submitted : Bool
  openedPosition : Option Position
  notifications : List Notification
  tpSlScheduled : Bool
deriving DecidableEq, Repr

/-- The side mapping of executeTrade (line 49):
`signalType === 'SHORT_SQUEEZE' ? 'SHORT' : 'LONG'`. -/
def sideFor (signalType : String) : Side :=
  if signalType = "SHORT_SQUEEZE" then Side.SHORT else Side.LONG

/-- The entry-price resolution of executeTrade (lines 74-76):
`product.mark_price_x18 ? fromX18(product.mark_price_x18) :
signal.stats?.lastPrice || 0`.  A zero X18 mark price is falsy, so it
falls back to the signal price; a missing fallback yields 0. -/
def resolveEntryPrice (product : Product) (sig : Signal) : ℚ :=
  match product.mark_price_x18 with
  | some x => if x = 0 then sig.statsLastPrice.getD 0 else fromX18 x
  | none => sig.statsLastPrice.getD 0

/-- JS `Map.set` keyed by the position digest: replace an existing entry
with the same key, otherwise append. -/
def mapSet (l : List Position) (p : Position) : List Position :=
  if l.any (fun q => q.digest == p.digest) then
    l.map (fun q => if q.digest = p.digest then p else q)
  else
    l ++ [p]

/-- `executeTrade` (tradeManager.js lines 40-133).  Gate with
canOpenNewPosition (which performs the lazy daily reset); compute the
side from the signal type; abort silently when the product is unknown;
abort with a notification when the balance is under $5; abort silently
when no entry price can be resolved; submit the entry order
(placeMarketOrder — its internal catch returns null on failure); on a
missing order or digest abort silently; otherwise register the position,
increment the daily counter, schedule TP/SL placement and send the open
notification. -/
def executeTrade (cfg : RiskConfig) (env : ExecEnv) (s0 : TMState)
    (sig : Signal) : TradeOutcome :=
  let gate := canOpenNewPosition cfg env.today s0
  let s := gate.1
  if !gate.2 then ⟨s, false, none, [], false⟩
  else
    let side := sideFor sig.signalType
    match env.product with
    | none => ⟨s, false, none, [], false⟩
    | some product =>
        let availableUSDT := env.balanceUSDT0
        if availableUSDT < 5 then
          ⟨s, false, none,
           [Notification.message "Insufficient balance for trading"], false⟩
        else
          let positionSize := calculatePositionSize cfg availableUSDT
          let entryPrice := resolveEntryPrice product sig
          if entryPrice = 0 then ⟨s, false, none, [], false⟩
          else
            let tpPrice := tpPriceFor cfg side entryPrice
            let slPrice := slPriceFor cfg side entryPrice
            match env.orderDigest with
            | none => ⟨s, true, none, [], false⟩
            | some d =>
                let pos : Position :=
                  ⟨d, sig.symbol, side, entryPrice, positionSize,
                   tpPrice, slPrice, product.product_id, none, none⟩
                ⟨{ s with openPositions := mapSet s.openPositions pos,
                          dailyTrades := s.dailyTrades + 1 },
                 true, some pos,
                 [Notification.tradeOpen pos availableUSDT], true⟩

/-- `validateSignal` of the Telegram listener (listener.js lines 117-132):
the symbol must be in the configured whitelist and the signal type must
be one of SHORT_SQUEEZE / LONG_FLUSH. -/
def validateSignal (allowedSymbols : List String) (sig : Signal) : Bool :=
  if !allowedSymbols.contains sig.symbol then false
  else if !(["SHORT_SQUEEZE", "LONG_FLUSH"].contains sig.signalType) then false
  else true

/-- The position record executeTrade constructs on a successful entry
(lines 102-114), as a function of the call's inputs. -/
def entryPosition (cfg : RiskConfig) (env : ExecEnv) (sig : Signal)
    (prod : Product) (d : String) : Position :=
  let side := sideFor sig.signalType
  let entryPrice := resolveEntryPrice prod sig
  ⟨d, sig.symbol, side, entryPrice, calculatePositionSize cfg env.balanceUSDT0,
   tpPriceFor cfg side entryPrice, slPriceFor cfg side entryPrice,
   prod.product_id, none, none⟩

/-- A position matches a fill event digest when the digest equals its TP
or its SL order digest — the membership test of the scan loop in
handleOrderUpdate. -/
def matchesFill (p : Position) (d : String) : Prop :=
  p.tpOrderDigest = some d ∨ p.slOrderDigest = some d

/-- An environment in which executeTrade runs to full success on a given
day: the clock reads that day, the balance passes the $5 floor, the
product is known with a resolvable entry price, and the entry order is
accepted with a digest. -/
def admissibleOk (env : ExecEnv) (sig : Signal) (t : String) : Prop :=
  env.today = t ∧ ¬ env.balanceUSDT0 < 5 ∧
  (∃ prod, env.product = some prod ∧ resolveEntryPrice prod sig ≠ 0) ∧
  (∃ d, env.orderDigest = some d)

/-! Concrete scenario values used by the witnesses: the default risk
configuration with the open-position cap raised to 6, a BTCUSDT product
whose mark price is 50000 in X18, a SHORT_SQUEEZE signal, and a fresh
manager state. -/

def cfgW : RiskConfig := ⟨5/2, 4/5, 3/10, 20, 5, 6⟩

def prodW : Product := ⟨1, some (50000 * 10 ^ 18)⟩

def sigW : Signal := ⟨"BTCUSDT", "SHORT_SQUEEZE", none⟩

def envW (d : String) : ExecEnv :=
  ⟨some prodW, 1000, some d, "Mon Jan 06 2025"⟩

def s0W : TMState := ⟨[], 0, "Mon Jan 06 2025"⟩

def rW1 : TradeOutcome := executeTrade cfgW (envW "d1") s0W sigW

def rW2 : TradeOutcome := executeTrade cfgW (envW "d2") rW1.state sigW

def rW3 : TradeOutcome := executeTrade cfgW (envW "d3") rW2.state sigW

def rW4 : TradeOutcome := executeTrade cfgW (envW "d4") rW3.state sigW

def rW5 : TradeOutcome := executeTrade cfgW (envW "d5") rW4.state sigW

def rW6 : TradeOutcome := executeTrade cfgW (envW "d6") rW5.state sigW

instance (p : Position) (d : String) : Decidable (matchesFill p d) :=
  inferInstanceAs (Decidable (_ ∨ _))

/-- A LONG position protected by TP order t1 and SL order s1, used by
the witnesses. -/
def posW : Position :=
  ⟨"e1", "BTCUSDT", Side.LONG, 100, 50, 101, 99, 1, some "t1", some "s1"⟩

def sW : TMState := ⟨[posW], 2, "Mon Jan 06 2025"⟩

def uW : OrderUpdate := ⟨"t1", "filled", some (101 * 10 ^ 18)⟩

/-- A signal with a type outside the valid set, on a non-whitelisted
symbol. -/
def sigG : Signal := ⟨"DOGEUSDT", "GARBAGE", none⟩

def envG : ExecEnv := ⟨some prodW, 1000, some "d9", "Mon Jan 06 2025"⟩

/-! ### Theorems -/

/-- Claim C4: for all balances B > 0, risk percents R in (0, 100] and
leverages L ≥ 1, the position-size computation returns exactly
B * R / 100 * L, and the result is always strictly positive. -/
theorem calculatePositionSize_spec (cfg : RiskConfig) (B : ℚ)
    (hB : 0 < B) (hR : 0 < cfg.riskPercent) (hR' : cfg.riskPercent ≤ 100)
    (hL : 1 ≤ cfg.leverage) :
    calculatePositionSize cfg B = B * cfg.riskPercent / 100 * cfg.leverage ∧
    0 < calculatePositionSize cfg B := by
  have hL0 : (0 : ℚ) < cfg.leverage := lt_of_lt_of_le one_pos hL
  refine ⟨rfl, ?_⟩
  unfold calculatePositionSize
  exact mul_pos (div_pos (mul_pos hB hR) (by norm_num)) hL0

/-- Witness for C4 at the spec scenario: balance 1000, risk 2.5 percent,
leverage 20 (size 500). -/
theorem calculatePositionSize_spec_witness :
    calculatePositionSize ⟨5/2, 4/5, 3/10, 20, 5, 1⟩ 1000 =
      1000 * (5/2) / 100 * 20 ∧
    0 < calculatePositionSize ⟨5/2, 4/5, 3/10, 20, 5, 1⟩ 1000 :=
  calculatePositionSize_spec ⟨5/2, 4/5, 3/10, 20, 5, 1⟩ 1000 (by norm_num)
    (by norm_num) (by norm_num) (by norm_num)

/-- Claim C5: for every entry price P > 0 and positive TP/SL percents,
the protective prices computed in executeTrade satisfy, for a LONG,
tp = P(1 + tp/100) > P > P(1 - sl/100) = sl, and for a SHORT,
sl = P(1 + sl/100) > P > P(1 - tp/100) = tp. -/
theorem tpsl_price_ordering (cfg : RiskConfig) (P : ℚ) (hP : 0 < P)
    (htp : 0 < cfg.takeProfitPercent) (hsl : 0 < cfg.stopLossPercent) :
    (tpPriceFor cfg Side.LONG P = P * (1 + cfg.takeProfitPercent / 100) ∧
     slPriceFor cfg Side.LONG P = P * (1 - cfg.stopLossPercent / 100) ∧
     P < tpPriceFor cfg Side.LONG P ∧ slPriceFor cfg Side.LONG P < P) ∧
    (slPriceFor cfg Side.SHORT P = P * (1 + cfg.stopLossPercent / 100) ∧
     tpPriceFor cfg Side.SHORT P = P * (1 - cfg.takeProfitPercent / 100) ∧
     P < slPriceFor cfg Side.SHORT P ∧ tpPriceFor cfg Side.SHORT P < P) := by
  have h1 : P < P * (1 + cfg.takeProfitPercent / 100) := by nlinarith
  have h2 : P * (1 - cfg.stopLossPercent / 100) < P := by nlinarith
  have h3 : P < P * (1 + cfg.stopLossPercent / 100) := by nlinarith
  have h4 : P * (1 - cfg.takeProfitPercent / 100) < P := by nlinarith
  simp [tpPriceFor, slPriceFor, h1, h2, h3, h4]

/-- Witness for C5 at the spec scenario: entry 50000, default risk
configuration (TP 0.8 percent, SL 0.3 percent). -/
theorem tpsl_price_ordering_witness :
    (tpPriceFor ⟨5/2, 4/5, 3/10, 20, 5, 1⟩ Side.LONG 50000 =
       50000 * (1 + (4/5) / 100) ∧
     slPriceFor ⟨5/2, 4/5, 3/10, 20, 5, 1⟩ Side.LONG 50000 =
       50000 * (1 - (3/10) / 100) ∧
     (50000 : ℚ) < tpPriceFor ⟨5/2, 4/5, 3/10, 20, 5, 1⟩ Side.LONG 50000 ∧
     slPriceFor ⟨5/2, 4/5, 3/10, 20, 5, 1⟩ Side.LONG 50000 < 50000) ∧
    (slPriceFor ⟨5/2, 4/5, 3/10, 20, 5, 1⟩ Side.SHORT 50000 =
       50000 * (1 + (3/10) / 100) ∧
     tpPriceFor ⟨5/2, 4/5, 3/10, 20, 5, 1⟩ Side.SHORT 50000 =
       50000 * (1 - (4/5) / 100) ∧
     (50000 : ℚ) < slPriceFor ⟨5/2, 4/5, 3/10, 20, 5, 1⟩ Side.SHORT 50000 ∧
     tpPriceFor ⟨5/2, 4/5, 3/10, 20, 5, 1⟩ Side.SHORT 50000 < 50000) :=
  tpsl_price_ordering ⟨5/2, 4/5, 3/10, 20, 5, 1⟩ 50000 (by norm_num)
    (by norm_num) (by norm_num)

/-- Claim C6: every close with a concrete exit price and entry price > 0
reports, in its single close notification, exactly
pnlPercent = (exit-entry)/entry*100 for a LONG and (entry-exit)/entry*100
for a SHORT, and pnlUSD = size * pnlPercent / 100. -/
theorem closePosition_pnl (s : TMState) (p : Position) (reason : CloseReason)
    (exit newBalance : ℚ) (hentry : 0 < p.entryPrice) :
    (closePosition s p reason (some exit) newBalance).2 =
      [Notification.tradeClose p reason (some exit)
        (some (p.size * (if p.side = Side.LONG
            then (exit - p.entryPrice) / p.entryPrice * 100
            else (p.entryPrice - exit) / p.entryPrice * 100) / 100))
        (some (if p.side = Side.LONG
            then (exit - p.entryPrice) / p.entryPrice * 100
            else (p.entryPrice - exit) / p.entryPrice * 100))
        newBalance] := by
  simp [closePosition, pnlPercentOf]

/-- Witness for C6: a LONG from 100 closed at 101 with size 50 reports
pnlPercent 1 and pnlUSD 0.5. -/
theorem closePosition_pnl_witness :
    (closePosition ⟨[], 0, "Mon Jan 06 2025"⟩
        ⟨"e1", "BTCUSDT", Side.LONG, 100, 50, 101, 99, 1, some "t1", some "s1"⟩
        CloseReason.TP (some 101) 990).2 =
      [Notification.tradeClose
        ⟨"e1", "BTCUSDT", Side.LONG, 100, 50, 101, 99, 1, some "t1", some "s1"⟩
        CloseReason.TP (some 101)
        (some (50 * (if Side.LONG = Side.LONG
            then ((101 : ℚ) - 100) / 100 * 100
            else ((100 : ℚ) - 101) / 100 * 100) / 100))
        (some (if Side.LONG = Side.LONG
            then ((101 : ℚ) - 100) / 100 * 100
            else ((100 : ℚ) - 101) / 100 * 100))
        990] :=
  closePosition_pnl ⟨[], 0, "Mon Jan 06 2025"⟩
    ⟨"e1", "BTCUSDT", Side.LONG, 100, 50, 101, 99, 1, some "t1", some "s1"⟩
    CloseReason.TP 101 990 (by norm_num)

/-- Claim C8 (the code contradicts it): on a thrown SDK error, or an
empty subaccount summary, the alternative client's getSubaccountBalance
returns the fabricated non-zero placeholder balance 100.0 instead of
failing closed. -/
theorem balance_bypass_fabricates_100 :
    getSubaccountBalanceAlt FetchOutcome.thrown = 100 ∧
    getSubaccountBalanceAlt (FetchOutcome.ok none) = 100 ∧
    getSubaccountBalanceAlt (FetchOutcome.ok (some ⟨none⟩)) = 100 ∧
    (100 : ℚ) ≠ 0 :=
  ⟨rfl, rfl, rfl, by norm_num⟩

/-- Claim C9: when the stored reset date differs from the current date,
the lazy daily reset zeroes the trade counter, updates the reset date,
and leaves the open-position map (every entry and every field) unchanged. -/
theorem resetDailyCounter_frame (s : TMState) (today : String)
    (h : s.lastResetDate ≠ today) :
    (resetDailyCounterIfNeeded today s).dailyTrades = 0 ∧
    (resetDailyCounterIfNeeded today s).lastResetDate = today ∧
    (resetDailyCounterIfNeeded today s).openPositions = s.openPositions := by
  simp [resetDailyCounterIfNeeded, h]

/-- Witness for C9: a rollover with one OPEN position tracked and three
trades counted. -/
theorem resetDailyCounter_frame_witness :
    (resetDailyCounterIfNeeded "Tue Jan 07 2025"
        ⟨[⟨"e1", "BTCUSDT", Side.LONG, 100, 50, 101, 99, 1, some "t1", some "s1"⟩],
         3, "Mon Jan 06 2025"⟩).dailyTrades = 0 ∧
    (resetDailyCounterIfNeeded "Tue Jan 07 2025"
        ⟨[⟨"e1", "BTCUSDT", Side.LONG, 100, 50, 101, 99, 1, some "t1", some "s1"⟩],
         3, "Mon Jan 06 2025"⟩).lastResetDate = "Tue Jan 07 2025" ∧
    (resetDailyCounterIfNeeded "Tue Jan 07 2025"
        ⟨[⟨"e1", "BTCUSDT", Side.LONG, 100, 50, 101, 99, 1, some "t1", some "s1"⟩],
         3, "Mon Jan 06 2025"⟩).openPositions =
      [⟨"e1", "BTCUSDT", Side.LONG, 100, 50, 101, 99, 1, some "t1", some "s1"⟩] :=
  resetDailyCounter_frame
    ⟨[⟨"e1", "BTCUSDT", Side.LONG, 100, 50, 101, 99, 1, some "t1", some "s1"⟩],
     3, "Mon Jan 06 2025"⟩ "Tue Jan 07 2025" (by decide)

/-- Counterexample to claim C7: with trading hours enabled, a window of
22:00 to 02:00 (start > end) and the clock at 23:00 UTC, the claimed
wrap-around predicate (at or after start, or before end) holds, yet
isWithinTradingHours returns false — the source comparison does not wrap. -/
theorem tradingHours_wraparound_cex :
    ((2 : ℕ) * 60 + 0 < 22 * 60 + 0) ∧
    ((22 : ℕ) * 60 + 0 ≤ 23 * 60 + 0 ∨ (23 : ℕ) * 60 + 0 < 2 * 60 + 0) ∧
    isWithinTradingHours ⟨true, 22, 0, 2, 0⟩ 23 0 = false := by
  decide

/-- Claim C7 as amended: with trading hours enabled and a configured
window whose start minute-of-day is strictly after its end minute-of-day,
isWithinTradingHours returns false at every time of day — the comparison
(start ≤ current and current ≤ end, an inclusive window) never wraps
around midnight. -/
theorem tradingHours_startGtEnd_false (cfg : TradingHoursConfig)
    (utcHours utcMinutes : ℕ) (hen : cfg.enabled = true)
    (hgt : cfg.endHour * 60 + cfg.endMin < cfg.startHour * 60 + cfg.startMin) :
    isWithinTradingHours cfg utcHours utcMinutes = false := by
  simp [isWithinTradingHours, hen]
  omega

/-- Witness for the amended C7: window 22:00 to 02:00, clock 05:30 UTC. -/
theorem tradingHours_startGtEnd_false_witness :
    isWithinTradingHours ⟨true, 22, 0, 2, 0⟩ 5 30 = false :=
  tradingHours_startGtEnd_false ⟨true, 22, 0, 2, 0⟩ 5 30 rfl (by decide)

/-- The lazy reset is a no-op when the stored date already equals the
current date. -/
theorem resetDailyCounter_sameDate (today : String) (s : TMState)
    (h : s.lastResetDate = today) : resetDailyCounterIfNeeded today s = s := by
  simp [resetDailyCounterIfNeeded, h]

/-- Within one day, canOpenNewPosition answers true exactly when both
caps have headroom; the state is untouched. -/
theorem canOpen_sameDate_true (cfg : RiskConfig) (today : String)
    (s : TMState) (h : s.lastResetDate = today)
    (hdt : s.dailyTrades < cfg.maxDailyTrades)
    (hop : s.openPositions.length < cfg.maxOpenPositions) :
    canOpenNewPosition cfg today s = (s, true) := by
  simp [canOpenNewPosition, resetDailyCounter_sameDate today s h,
    Nat.not_le.mpr hdt, Nat.not_le.mpr hop]

/-- Within one day, canOpenNewPosition answers false once the daily cap
is reached; the state is untouched. -/
theorem canOpen_sameDate_capped (cfg : RiskConfig) (today : String)
    (s : TMState) (h : s.lastResetDate = today)
    (hdt : cfg.maxDailyTrades ≤ s.dailyTrades) :
    canOpenNewPosition cfg today s = (s, false) := by
  simp [canOpenNewPosition, resetDailyCounter_sameDate today s h, hdt]

/-- On the fully successful path, executeTrade registers exactly the
entry position, bumps the daily counter by one, schedules TP/SL and
sends one open notification. -/
theorem executeTrade_success (cfg : RiskConfig) (env : ExecEnv)
    (s0 : TMState) (sig : Signal) (prod : Product) (d : String)
    (hcan : canOpenNewPosition cfg env.today s0 = (s0, true))
    (hp : env.product = some prod)
    (hb : ¬ env.balanceUSDT0 < 5)
    (hpr : resolveEntryPrice prod sig ≠ 0)
    (hd : env.orderDigest = some d) :
    executeTrade cfg env s0 sig =
      ⟨{ s0 with
          openPositions := mapSet s0.openPositions (entryPosition cfg env sig prod d),
          dailyTrades := s0.dailyTrades + 1 },
       true, some (entryPosition cfg env sig prod d),
       [Notification.tradeOpen (entryPosition cfg env sig prod d) env.balanceUSDT0],
       true⟩ := by
  simp [executeTrade, entryPosition, hcan, hp, hb, hpr, hd]

/-- When the admission gate answers false, executeTrade drops the signal
silently: no submission, no position, no notification, no TP/SL. -/
theorem executeTrade_blocked (cfg : RiskConfig) (env : ExecEnv)
    (s0 : TMState) (sig : Signal)
    (hcan : canOpenNewPosition cfg env.today s0 = (s0, false)) :
    executeTrade cfg env s0 sig = ⟨s0, false, none, [], false⟩ := by
  simp [executeTrade, hcan]

/-- Inserting into the open-position map grows it by at most one entry. -/
theorem mapSet_length (l : List Position) (p : Position) :
    (mapSet l p).length ≤ l.length + 1 := by
  unfold mapSet
  split <;>
    (simp only [List.length_map, List.length_append, List.length_cons,
      List.length_nil]; omega)

/-- One successful executeTrade step: submission happens, the daily
counter advances by exactly one, the reset date is unchanged, and the
open-position map grows by at most one. -/
theorem executeTrade_step (cfg : RiskConfig) (env : ExecEnv) (s0 : TMState)
    (sig : Signal) (t : String) (ha : admissibleOk env sig t)
    (hdate : s0.lastResetDate = t)
    (hdt : s0.dailyTrades < cfg.maxDailyTrades)
    (hop : s0.openPositions.length < cfg.maxOpenPositions) :
    (executeTrade cfg env s0 sig).submitted = true ∧
    (executeTrade cfg env s0 sig).state.dailyTrades = s0.dailyTrades + 1 ∧
    (executeTrade cfg env s0 sig).state.lastResetDate = t ∧
    (executeTrade cfg env s0 sig).state.openPositions.length ≤
      s0.openPositions.length + 1 := by
  obtain ⟨ht, hb, ⟨prod, hp, hpr⟩, d, hd⟩ := ha
  have hdate2 : s0.lastResetDate = env.today := by rw [ht, hdate]
  have hcan := canOpen_sameDate_true cfg env.today s0 hdate2 hdt hop
  rw [executeTrade_success cfg env s0 sig prod d hcan hp hb hpr hd]
  exact ⟨rfl, rfl, hdate, mapSet_length s0.openPositions _⟩

/-- A signal arriving after the daily cap is reached (same day, so the
lazy reset does not fire) is dropped with no effect at all. -/
theorem executeTrade_dailyCapBlocked (cfg : RiskConfig) (env : ExecEnv)
    (s0 : TMState) (sig : Signal) (t : String)
    (ht : env.today = t) (hdate : s0.lastResetDate = t)
    (hdt : cfg.maxDailyTrades ≤ s0.dailyTrades) :
    executeTrade cfg env s0 sig = ⟨s0, false, none, [], false⟩ := by
  have hdate2 : s0.lastResetDate = env.today := by rw [ht, hdate]
  exact executeTrade_blocked cfg env s0 sig
    (canOpen_sameDate_capped cfg env.today s0 hdate2 hdt)

/-- closePosition removes exactly the entries keyed by the closed
position's digest and touches nothing else in the state. -/
theorem closePosition_state (s : TMState) (p : Position) (reason : CloseReason)
    (exitPrice : Option ℚ) (newBalance : ℚ) :
    (closePosition s p reason exitPrice newBalance).1 =
      { s with openPositions :=
          s.openPositions.filter (fun q => q.digest != p.digest) } := rfl

/-- closePosition sends exactly one notification. -/
theorem closePosition_notifs_length (s : TMState) (p : Position)
    (reason : CloseReason) (exitPrice : Option ℚ) (newBalance : ℚ) :
    (closePosition s p reason exitPrice newBalance).2.length = 1 := rfl

/-- A successful scan returns a member of the map that matches the
digest. -/
theorem findFillMatch_some {l : List Position} {d : String} {p : Position}
    {r : CloseReason} (h : findFillMatch l d = some (p, r)) :
    p ∈ l ∧ matchesFill p d := by
  induction l with
  | nil => exact absurd h (by simp [findFillMatch])
  | cons q rest ih =>
      rw [findFillMatch] at h
      split at h
      · rename_i h1
        simp only [Option.some.injEq, Prod.mk.injEq] at h
        obtain ⟨hq, -⟩ := h
        subst hq
        exact ⟨List.mem_cons_self q rest, Or.inl h1⟩
      · split at h
        · rename_i h2
          simp only [Option.some.injEq, Prod.mk.injEq] at h
          obtain ⟨hq, -⟩ := h
          subst hq
          exact ⟨List.mem_cons_self q rest, Or.inr h2⟩
        · obtain ⟨hm, hmt⟩ := ih h
          exact ⟨List.mem_cons_of_mem q hm, hmt⟩

/-- If no position in the map matches the digest, the scan finds
nothing. -/
theorem findFillMatch_eq_none {l : List Position} {d : String}
    (h : ∀ q ∈ l, ¬ matchesFill q d) : findFillMatch l d = none := by
  induction l with
  | nil => rfl
  | cons q rest ih =>
      have hq := h q (List.mem_cons_self q rest)
      rw [findFillMatch,
        if_neg (fun ht => hq (Or.inl ht)),
        if_neg (fun hs => hq (Or.inr hs))]
      exact ih (fun q1 hq1 => h q1 (List.mem_cons_of_mem q hq1))

/-- A fill event that matches nothing in the store is a no-op. -/
theorem handleOrderUpdate_nomatch (s : TMState) (u : OrderUpdate) (nb : ℚ)
    (h : findFillMatch s.openPositions u.digest = none) :
    handleOrderUpdate s u nb = (s, []) := by
  unfold handleOrderUpdate
  rw [h]
  split <;> rfl

/-- Claim C1: for duplicate fill events carrying the same order digest,
exactly one close transition and one close notification occur: the
first filled event closes the matched position — removing exactly the
entries keyed by its digest from the store, with a single close
notification — and a repeat delivery on the resulting state is a no-op
that leaves the position store and counters unchanged and sends
nothing.  The digest is assumed to match at most one store key (the
exchange assigns order digests uniquely). -/
theorem duplicateFill_idempotent (s : TMState) (u : OrderUpdate)
    (nb nb' : ℚ) (p : Position) (r : CloseReason)
    (huniq : ∀ q ∈ s.openPositions, ∀ q' ∈ s.openPositions,
        matchesFill q u.digest → matchesFill q' u.digest →
        q.digest = q'.digest)
    (hst : u.status = "filled")
    (hm : findFillMatch s.openPositions u.digest = some (p, r)) :
    (handleOrderUpdate s u nb).2.length = 1 ∧
    (handleOrderUpdate s u nb).1.openPositions =
      s.openPositions.filter (fun q => q.digest != p.digest) ∧
    handleOrderUpdate (handleOrderUpdate s u nb).1 u nb' =
      ((handleOrderUpdate s u nb).1, []) := by
  have hpm := findFillMatch_some hm
  have h1 : handleOrderUpdate s u nb = closePosition s p r (fillPriceOf u) nb := by
    rw [handleOrderUpdate, if_neg (by simp [hst]), hm]
  have hn : findFillMatch
      (s.openPositions.filter (fun q => q.digest != p.digest)) u.digest = none := by
    apply findFillMatch_eq_none
    intro q hq hqm
    rw [List.mem_filter] at hq
    have hdg := huniq q hq.1 p hpm.1 hqm hpm.2
    simp [hdg] at hq
  refine ⟨?_, ?_, ?_⟩
  · rw [h1]
    exact closePosition_notifs_length s p r (fillPriceOf u) nb
  · rw [h1, closePosition_state]
  · rw [h1, closePosition_state]
    exact handleOrderUpdate_nomatch _ u nb' hn

/-- Witness for C1: one open LONG position whose TP digest is t1; a
filled event for t1 closes it with one notification and its repeat is a
no-op. -/
theorem duplicateFill_idempotent_witness :
    (handleOrderUpdate sW uW 990).2.length = 1 ∧
    (handleOrderUpdate sW uW 990).1.openPositions =
      sW.openPositions.filter (fun q => q.digest != posW.digest) ∧
    handleOrderUpdate (handleOrderUpdate sW uW 990).1 uW 991 =
      ((handleOrderUpdate sW uW 990).1, []) :=
  duplicateFill_idempotent sW uW 990 991 posW CloseReason.TP (by decide)
    rfl (by decide)

/-- Claim C2: with maxDailyTrades = 5, a run of six back-to-back
admissible signals within one day (the reset date never changes)
submits exactly five entries — the first five submit and the sixth does
not — the daily counter climbs 1,2,3,4,5 and never exceeds 5, and the
sixth call is dropped by the gate with no submission, no position, no
notification and no state change.  The open-position cap is assumed not
to interfere. -/
theorem dailyCap_six_signals (cfg : RiskConfig) (t : String) (s0 : TMState)
    (sig1 sig2 sig3 sig4 sig5 sig6 : Signal)
    (env1 env2 env3 env4 env5 env6 : ExecEnv)
    (r1 r2 r3 r4 r5 r6 : TradeOutcome)
    (hmax : cfg.maxDailyTrades = 5) (hmo : 6 ≤ cfg.maxOpenPositions)
    (hs0 : s0 = ⟨[], 0, t⟩)
    (ha1 : admissibleOk env1 sig1 t) (ha2 : admissibleOk env2 sig2 t)
    (ha3 : admissibleOk env3 sig3 t) (ha4 : admissibleOk env4 sig4 t)
    (ha5 : admissibleOk env5 sig5 t) (ha6 : admissibleOk env6 sig6 t)
    (hr1 : r1 = executeTrade cfg env1 s0 sig1)
    (hr2 : r2 = executeTrade cfg env2 r1.state sig2)
    (hr3 : r3 = executeTrade cfg env3 r2.state sig3)
    (hr4 : r4 = executeTrade cfg env4 r3.state sig4)
    (hr5 : r5 = executeTrade cfg env5 r4.state sig5)
    (hr6 : r6 = executeTrade cfg env6 r5.state sig6) :
    (r1.submitted = true ∧ r2.submitted = true ∧ r3.submitted = true ∧
     r4.submitted = true ∧ r5.submitted = true) ∧
    r6 = ⟨r5.state, false, none, [], false⟩ ∧
    (r1.state.dailyTrades = 1 ∧ r2.state.dailyTrades = 2 ∧
     r3.state.dailyTrades = 3 ∧ r4.state.dailyTrades = 4 ∧
     r5.state.dailyTrades = 5 ∧ r6.state.dailyTrades = 5) := by
  subst hs0
  have st1 := executeTrade_step cfg env1 (⟨[], 0, t⟩ : TMState) sig1 t ha1 rfl
    (by show 0 < cfg.maxDailyTrades; omega)
    (by show ([] : List Position).length < cfg.maxOpenPositions; simp; omega)
  rw [← hr1] at st1
  obtain ⟨hsub1, hdt1, hld1, hlen1⟩ := st1
  have hdt1' : r1.state.dailyTrades = 1 := by rw [hdt1]
  have hlen1' : r1.state.openPositions.length ≤ 1 := by simpa using hlen1
  have st2 := executeTrade_step cfg env2 r1.state sig2 t ha2 hld1
    (by omega) (by omega)
  rw [← hr2] at st2
  obtain ⟨hsub2, hdt2, hld2, hlen2⟩ := st2
  have hdt2' : r2.state.dailyTrades = 2 := by omega
  have hlen2' : r2.state.openPositions.length ≤ 2 := by omega
  have st3 := executeTrade_step cfg env3 r2.state sig3 t ha3 hld2
    (by omega) (by omega)
  rw [← hr3] at st3
  obtain ⟨hsub3, hdt3, hld3, hlen3⟩ := st3
  have hdt3' : r3.state.dailyTrades = 3 := by omega
  have hlen3' : r3.state.openPositions.length ≤ 3 := by omega
  have st4 := executeTrade_step cfg env4 r3.state sig4 t ha4 hld3
    (by omega) (by omega)
  rw [← hr4] at st4
  obtain ⟨hsub4, hdt4, hld4, hlen4⟩ := st4
  have hdt4' : r4.state.dailyTrades = 4 := by omega
  have hlen4' : r4.state.openPositions.length ≤ 4 := by omega
  have st5 := executeTrade_step cfg env5 r4.state sig5 t ha5 hld4
    (by omega) (by omega)
  rw [← hr5] at st5
  obtain ⟨hsub5, hdt5, hld5, hlen5⟩ := st5
  have hdt5' : r5.state.dailyTrades = 5 := by omega
  obtain ⟨ht6, -, -, -⟩ := ha6
  have h6 : executeTrade cfg env6 r5.state sig6 = ⟨r5.state, false, none, [], false⟩ :=
    executeTrade_dailyCapBlocked cfg env6 r5.state sig6 t ht6 hld5 (by omega)
  rw [← hr6] at h6
  refine ⟨⟨hsub1, hsub2, hsub3, hsub4, hsub5⟩, h6,
    hdt1', hdt2', hdt3', hdt4', hdt5', ?_⟩
  rw [h6]
  exact hdt5'

/-- Witness for C2: six identical SHORT_SQUEEZE signals on one day with
the default caps (daily 5) and a raised open-position cap of 6. -/
theorem dailyCap_six_signals_witness :
    (rW1.submitted = true ∧ rW2.submitted = true ∧ rW3.submitted = true ∧
     rW4.submitted = true ∧ rW5.submitted = true) ∧
    rW6 = ⟨rW5.state, false, none, [], false⟩ ∧
    (rW1.state.dailyTrades = 1 ∧ rW2.state.dailyTrades = 2 ∧
     rW3.state.dailyTrades = 3 ∧ rW4.state.dailyTrades = 4 ∧
     rW5.state.dailyTrades = 5 ∧ rW6.state.dailyTrades = 5) :=
  dailyCap_six_signals cfgW "Mon Jan 06 2025" s0W
    sigW sigW sigW sigW sigW sigW
    (envW "d1") (envW "d2") (envW "d3") (envW "d4") (envW "d5") (envW "d6")
    rW1 rW2 rW3 rW4 rW5 rW6
    rfl (by decide) rfl
    ⟨rfl, by norm_num [envW], ⟨prodW, rfl, by norm_num [resolveEntryPrice, prodW, sigW, fromX18]⟩, "d1", rfl⟩
    ⟨rfl, by norm_num [envW], ⟨prodW, rfl, by norm_num [resolveEntryPrice, prodW, sigW, fromX18]⟩, "d2", rfl⟩
    ⟨rfl, by norm_num [envW], ⟨prodW, rfl, by norm_num [resolveEntryPrice, prodW, sigW, fromX18]⟩, "d3", rfl⟩
    ⟨rfl, by norm_num [envW], ⟨prodW, rfl, by norm_num [resolveEntryPrice, prodW, sigW, fromX18]⟩, "d4", rfl⟩
    ⟨rfl, by norm_num [envW], ⟨prodW, rfl, by norm_num [resolveEntryPrice, prodW, sigW, fromX18]⟩, "d5", rfl⟩
    ⟨rfl, by norm_num [envW], ⟨prodW, rfl, by norm_num [resolveEntryPrice, prodW, sigW, fromX18]⟩, "d6", rfl⟩
    rfl rfl rfl rfl rfl rfl

/-- Counterexample to claim C3 as stated: a signal whose entry order is
rejected (the gateway returns no digest) is aborted with no state
created, but no notification is sent — the notifications list is empty,
the failure is only logged. -/
theorem entryFail_no_notification_cex :
    executeTrade cfgW ⟨some prodW, 1000, none, "Mon Jan 06 2025"⟩ s0W sigW =
      ⟨s0W, true, none, [], false⟩ := by
  have hcan : canOpenNewPosition cfgW "Mon Jan 06 2025"
      (⟨[], 0, "Mon Jan 06 2025"⟩ : TMState) =
      ((⟨[], 0, "Mon Jan 06 2025"⟩ : TMState), true) := by
    decide
  norm_num [executeTrade, hcan, prodW, sigW, s0W, resolveEntryPrice, fromX18]

/-- Claim C3 as amended: for every signal whose entry order submission
fails (the gateway returns no accepted order / no order digest),
executeTrade aborts the signal and creates no state — the position
store gains no entry, the daily counter is not incremented, and no
TP/SL placement is scheduled — but it sends no notification: the
failure is only logged. -/
theorem executeTrade_entryFail_noState (cfg : RiskConfig) (env : ExecEnv)
    (s0 : TMState) (sig : Signal) (prod : Product)
    (hcan : canOpenNewPosition cfg env.today s0 = (s0, true))
    (hp : env.product = some prod)
    (hb : ¬ env.balanceUSDT0 < 5)
    (hpr : resolveEntryPrice prod sig ≠ 0)
    (hd : env.orderDigest = none) :
    executeTrade cfg env s0 sig = ⟨s0, true, none, [], false⟩ := by
  simp [executeTrade, hcan, hp, hb, hpr, hd]

/-- Witness for the amended C3: a rejected entry order on a fresh day
leaves the fresh state untouched with an empty notifications list. -/
theorem executeTrade_entryFail_noState_witness :
    executeTrade cfgW ⟨some prodW, 1000, none, "Tue Jan 07 2025"⟩
        ⟨[], 0, "Tue Jan 07 2025"⟩ sigW =
      ⟨⟨[], 0, "Tue Jan 07 2025"⟩, true, none, [], false⟩ :=
  executeTrade_entryFail_noState cfgW
    ⟨some prodW, 1000, none, "Tue Jan 07 2025"⟩
    ⟨[], 0, "Tue Jan 07 2025"⟩ sigW prodW (by decide) rfl (by norm_num)
    (by norm_num [resolveEntryPrice, prodW, sigW, fromX18]) rfl

/-- Claim C10: on every successful executeTrade call, the registered
position's side is SHORT exactly when signalType is the string
SHORT_SQUEEZE; any other value — including values outside the valid
set — yields a LONG trade, because executeTrade itself performs no
signal-type admission check (the upstream listener's validateSignal is
where a type outside SHORT_SQUEEZE / LONG_FLUSH is rejected). -/
theorem sideMapping_no_admission (cfg : RiskConfig) (env : ExecEnv)
    (s0 : TMState) (sig : Signal) (prod : Product) (d : String)
    (hcan : canOpenNewPosition cfg env.today s0 = (s0, true))
    (hp : env.product = some prod)
    (hb : ¬ env.balanceUSDT0 < 5)
    (hpr : resolveEntryPrice prod sig ≠ 0)
    (hd : env.orderDigest = some d) :
    ∃ pos, (executeTrade cfg env s0 sig).openedPosition = some pos ∧
      (executeTrade cfg env s0 sig).submitted = true ∧
      (pos.side = Side.SHORT ↔ sig.signalType = "SHORT_SQUEEZE") ∧
      ((sig.signalType ≠ "SHORT_SQUEEZE" ∧ sig.signalType ≠ "LONG_FLUSH") →
        ∀ allowedSymbols, validateSignal allowedSymbols sig = false) := by
  rw [executeTrade_success cfg env s0 sig prod d hcan hp hb hpr hd]
  refine ⟨entryPosition cfg env sig prod d, rfl, rfl, ?_, ?_⟩
  · by_cases h : sig.signalType = "SHORT_SQUEEZE" <;>
      simp [entryPosition, sideFor, h]
  · rintro ⟨h1, h2⟩ allowedSymbols
    simp [validateSignal, h1, h2]

/-- Witness for C10: a GARBAGE-typed signal on a non-whitelisted symbol
still trades, as a LONG, while validateSignal rejects it. -/
theorem sideMapping_no_admission_witness :
    ∃ pos, (executeTrade cfgW envG s0W sigG).openedPosition = some pos ∧
      (executeTrade cfgW envG s0W sigG).submitted = true ∧
      (pos.side = Side.SHORT ↔ sigG.signalType = "SHORT_SQUEEZE") ∧
      ((sigG.signalType ≠ "SHORT_SQUEEZE" ∧ sigG.signalType ≠ "LONG_FLUSH") →
        ∀ allowedSymbols, validateSignal allowedSymbols sigG = false) :=
  sideMapping_no_admission cfgW envG s0W sigG prodW "d9" (by decide) rfl
    (by norm_num [envG]) (by norm_num [resolveEntryPrice, prodW, sigG, fromX18]) rfl

end NadoBot
